import Mathlib

/-!
Shallow embedding of the `GenAILiveClient` streaming-session client
(`src/unnamed/part_000`).  TypeScript class fields become a `ClientState`
record; each method / transport callback becomes a pure function
`ClientState → ClientState × List Eff`, where `Eff` records, in program
order, the observable actions the method performs: emitter notifications,
sends on the Transport Session, and `setTimeout` registrations.  The
transport's own behaviour (whether `client.live.connect` resolves or
throws) is passed in as an explicit `succeed : Bool` parameter.
JavaScript truthiness on optional strings (empty string is falsy) is made
explicit via `jsTruthyStr`.
-/

namespace EsportsCoach

/-- The `_status` field: `"connected" | "disconnected" | "connecting"`. -/
inductive Status
  | disconnected
  | connecting
  | connected
deriving DecidableEq, Repr

/-- `Part.inlineData` in `@google/genai`: optional mime type and optional
base64 payload. -/
structure InlineData where
  mimeType : Option String
  data : Option String
deriving DecidableEq, Repr

/-- A content `Part`: optional text, optional inline data.  Other fields of
the SDK type are never inspected by the client and are omitted. -/
structure ContentPart where
  text : Option String
  inlineData : Option InlineData
deriving DecidableEq, Repr

/-- Opaque tool-call payload (`message.toolCall`); only routed, never
inspected. -/
abbrev ToolCall := String

/-- Opaque tool-call-cancellation payload. -/
abbrev ToolCallCancellation := String

/-- Opaque function-response element of a `LiveClientToolResponse`. -/
abbrev FunctionResponse := String

/-- `sessionResumptionUpdate` payload: `resumable` flag and optional
`newHandle` string. -/
structure ResumptionUpdate where
  resumable : Bool
  newHandle : Option String
deriving DecidableEq, Repr

/-- `goAway` payload: optional `timeLeft` (stringly typed; the code calls
`parseInt(timeLeft.toString())`). -/
structure GoAwayMsg where
  timeLeft : Option String
deriving DecidableEq, Repr

/-- `message.serverContent`: the code tests key presence with `"x" in`,
so `interrupted` / `turnComplete` are presence booleans, and `modelTurn`
is presence of the key (outer `Option`) around presence of `parts`
(inner `Option`, read as `modelTurn?.parts || []`). -/
structure ServerContent where
  interrupted : Bool
  turnComplete : Bool
  modelTurn : Option (Option (List ContentPart))
deriving DecidableEq, Repr

/-- One raw inbound `LiveServerMessage`, with the exact fields the
`onmessage` dispatcher tests, in its testing order. -/
structure LiveServerMessage where
  setupComplete : Bool
  goAway : Option GoAwayMsg
  sessionResumptionUpdate : Option ResumptionUpdate
  toolCall : Option ToolCall
  toolCallCancellation : Option ToolCallCancellation
  serverContent : Option ServerContent
deriving DecidableEq, Repr

/-- `LiveClientToolResponse`: optional array of function responses. -/
structure LiveClientToolResponse where
  functionResponses : Option (List FunctionResponse)
deriving DecidableEq, Repr

/-- A realtime media chunk `{ mimeType, data }`. -/
structure Chunk where
  mimeType : String
  data : String
deriving DecidableEq, Repr

/-- Argument of `send`: `Part | Part[]`. -/
inductive PartsArg
  | single (p : ContentPart)
  | many (l : List ContentPart)
deriving DecidableEq, Repr

/-- Payload of a `log` emitter event (`StreamingLog.message`): a plain
string, a whole server message, the outgoing client-content record, or a
tool response. -/
inductive LogMsg
  | str (s : String)
  | server (m : LiveServerMessage)
  | clientContent (turns : List ContentPart) (turnComplete : Bool)
  | toolResp (tr : LiveClientToolResponse)
deriving DecidableEq, Repr

/-- Observable actions, in program order: emitter events (`emit*`),
sends to the Transport Session (`send*` / `openSession` / `closeSession`)
and `setTimeout` registrations (`timer*`, carrying the delay in ms). -/
inductive Eff
  | emitOpen
  | emitClose (code : Nat) (reason : String)
  | emitError (msg : String)
  | emitSetupComplete
  | emitAudio (data : List Nat)
  | emitContent (parts : List ContentPart)
  | emitInterrupted
  | emitTurnComplete
  | emitToolCall (tc : ToolCall)
  | emitToolCallCancellation (tcc : ToolCallCancellation)
  | emitLog (type : String) (msg : LogMsg)
  | sendMedia (mimeType data : String)
  | sendToolResp (rs : List FunctionResponse)
  | sendContent (turns : PartsArg) (turnComplete : Bool)
  | openSession (model : String) (config : String) (handle : Option String)
  | closeSession
  | timerReconnect (delay : Nat)
  | timerGoAway (delay : Nat)
deriving DecidableEq, Repr

/-- The mutable fields of `GenAILiveClient`.  `session` abstracts the
`_session : Session | null` handle to its presence; `config` is the
opaque stored `LiveConnectConfig`. -/
structure ClientState where
  status : Status
  session : Bool
  model : Option String
  config : Option String
  resumptionHandle : Option String
  autoReconnectEnabled : Bool
  reconnectAttempts : Nat
  maxReconnectAttempts : Nat
  reconnectDelay : Nat
deriving DecidableEq, Repr

/-- Freshly constructed client: `disconnected`, no session, auto-reconnect
on, 0 attempts, ceiling 5, base delay 1000 ms. -/
def initialState : ClientState :=
  { status := .disconnected
    session := false
    model := none
    config := none
    resumptionHandle := none
    autoReconnectEnabled := true
    reconnectAttempts := 0
    maxReconnectAttempts := 5
    reconnectDelay := 1000 }

/-- JavaScript truthiness of an optional string: `undefined` and `""` are
falsy, every other string truthy. -/
def jsTruthyStr : Option String → Option String
  | none => none
  | some s => if s = "" then none else some s

/-- `String.prototype.includes` (substring containment), spelled out over
character lists so it evaluates by kernel reduction. -/
def jsIncludes (s sub : String) : Bool :=
  (List.range (s.toList.length + 1)).any
    (fun i => sub.toList.isPrefixOf (s.toList.drop i))

/-- `String.prototype.startsWith`, over character lists. -/
def jsStartsWith (s pre : String) : Bool :=
  pre.toList.isPrefixOf s.toList

/-- Value of a decimal digit run. -/
def natOfDigits (l : List Char) : Nat :=
  l.foldl (fun n c => n * 10 + (c.toNat - 48)) 0

/-- JavaScript `parseInt` (radix 10): skip whitespace, optional sign,
leading digit run; `none` models `NaN`. -/
def jsParseInt (s : String) : Option Int :=
  let l := s.toList.dropWhile (fun c => c = ' ' ∨ c = '\t' ∨ c = '\n' ∨ c = '\r')
  match l with
  | '-' :: rest =>
      let ds := rest.takeWhile Char.isDigit
      if ds.isEmpty then none else some (-(natOfDigits ds : Int))
  | '+' :: rest =>
      let ds := rest.takeWhile Char.isDigit
      if ds.isEmpty then none else some (natOfDigits ds : Int)
  | _ =>
      let ds := l.takeWhile Char.isDigit
      if ds.isEmpty then none else some (natOfDigits ds : Int)

/-- Modelled from the spec: `base64ToArrayBuffer` from `src/lib/utils`
(the file is not part of the provided sources); the spec says audio
payloads are "decoded from transport encoding into a raw byte buffer".
Value of one base64 alphabet character. -/
def base64Val (c : Char) : Nat :=
  if 'A' ≤ c ∧ c ≤ 'Z' then c.toNat - 65
  else if 'a' ≤ c ∧ c ≤ 'z' then c.toNat - 97 + 26
  else if '0' ≤ c ∧ c ≤ '9' then c.toNat - 48 + 52
  else if c = '+' then 62
  else if c = '/' then 63
  else 0

/-- Modelled from the spec: base64 decoding of a character list, four
input characters to three output bytes, `=` padding shortening the final
group. -/
def base64DecodeAux : List Char → List Nat
  | c1 :: c2 :: c3 :: c4 :: rest =>
      let n := base64Val c1 * 2 ^ 18 + base64Val c2 * 2 ^ 12 +
               base64Val c3 * 2 ^ 6 + base64Val c4
      let b1 := n / 2 ^ 16 % 256
      let b2 := n / 2 ^ 8 % 256
      let b3 := n % 256
      if c4 = '=' then (if c3 = '=' then [b1] else [b1, b2])
      else b1 :: b2 :: b3 :: base64DecodeAux rest
  | [c1, c2, c3] =>
      let n := base64Val c1 * 2 ^ 12 + base64Val c2 * 2 ^ 6 + base64Val c3
      [n / 2 ^ 10 % 256, n / 2 ^ 2 % 256]
  | [c1, c2] =>
      let n := base64Val c1 * 2 ^ 6 + base64Val c2
      [n / 2 ^ 4 % 256]
  | _ => []

/-- Modelled from the spec: `base64ToArrayBuffer` — decode a base64
string to its byte list. -/
def base64ToArrayBuffer (s : String) : List Nat :=
  base64DecodeAux s.toList

/-- Shorthand for a `log` emitter event (the `log(type, message)` method
builds a `StreamingLog` and emits it; the timestamp is ambient). -/
def logE (type : String) (msg : LogMsg) : Eff :=
  Eff.emitLog type msg

/-- `scheduleReconnect`: at or past the attempt ceiling, permanently
disable auto-reconnection and schedule nothing; otherwise register a
timer for `reconnectDelay * 2 ^ reconnectAttempts` ms and increment the
counter. -/
def scheduleReconnect (s : ClientState) : ClientState × List Eff :=
  if s.reconnectAttempts ≥ s.maxReconnectAttempts then
    ({ s with autoReconnectEnabled := false }, [])
  else
    ({ s with reconnectAttempts := s.reconnectAttempts + 1 },
      [Eff.timerReconnect (s.reconnectDelay * 2 ^ s.reconnectAttempts)])

/-- `connect(model, config)`.  `succeed` is whether `client.live.connect`
resolves (`true`) or throws (`false`); returns the new state, the boolean
result, and the effects.  The session-open request carries the stored
resumption handle (the `sessionResumption` field of `enhancedConfig`). -/
def connect (succeed : Bool) (model config : String) (s : ClientState) :
    ClientState × Bool × List Eff :=
  if s.status = .connected ∨ s.status = .connecting then (s, false, [])
  else
    let s1 := { s with status := .connecting, config := some config,
                       model := some model }
    let openE := Eff.openSession model config s.resumptionHandle
    if succeed then
      ({ s1 with session := true, status := .connected, reconnectAttempts := 0 },
        true, [openE])
    else
      let s2 := { s1 with status := .disconnected }
      if s2.autoReconnectEnabled ∧ s2.reconnectAttempts < s2.maxReconnectAttempts then
        let r := scheduleReconnect s2
        (r.1, false, [openE] ++ r.2)
      else (s2, false, [openE])

/-- `disconnect()`: no-op returning `false` without a session; otherwise
close the transport, clear the handle, set `disconnected`, log, return
`true`. -/
def disconnect (s : ClientState) : ClientState × Bool × List Eff :=
  if s.session = false then (s, false, [])
  else
    ({ s with session := false, status := .disconnected }, true,
      [Eff.closeSession, logE "client.close" (.str "Disconnected")])

/-- `onopen` callback. -/
def onopen (s : ClientState) : ClientState × List Eff :=
  (s, [logE "client.open" (.str "Connected"), Eff.emitOpen])

/-- `onerror` callback. -/
def onerror (msg : String) (s : ClientState) : ClientState × List Eff :=
  (s, [logE "server.error" (.str msg), Eff.emitError msg])

/-- `onclose(e)`: log, set `disconnected` and clear the session, then —
when auto-reconnect is enabled and the code is not the normal closure
code 1000 — run `scheduleReconnect`; finally emit `close`. -/
def onclose (code : Nat) (reason : String) (s : ClientState) :
    ClientState × List Eff :=
  let closeLog := logE "server.close"
    (.str ("disconnected " ++ (if reason ≠ "" then "with reason: " ++ reason else "")))
  let s1 := { s with status := .disconnected, session := false }
  let r := if s1.autoReconnectEnabled ∧ code ≠ 1000 then scheduleReconnect s1
           else (s1, [])
  (r.1, [closeLog] ++ r.2 ++ [Eff.emitClose code reason])

/-- Is a part inline audio: `p.inlineData && p.inlineData.mimeType?.startsWith("audio/pcm")`. -/
def isAudioPart (p : ContentPart) : Bool :=
  match p.inlineData with
  | none => false
  | some d =>
    match d.mimeType with
    | none => false
    | some m => jsStartsWith m "audio/pcm"

/-- lodash `difference(l, excl)`: elements of `l` not occurring in
`excl`, order and duplicates of `l` preserved. -/
def lodashDifference (l excl : List ContentPart) : List ContentPart :=
  l.filter (fun p => ¬ p ∈ excl)

/-- The `base64s.forEach` loop: per truthy base64 payload, one `audio`
event with the decoded buffer plus its log line. -/
def audioEffsOf (base64s : List (Option String)) : List Eff :=
  (base64s.map (fun b? =>
    match jsTruthyStr b? with
    | some b =>
        let data := base64ToArrayBuffer b
        [Eff.emitAudio data,
         logE "server.audio" (.str ("buffer (" ++ toString data.length ++ ")"))]
    | none => [])).flatten

/-- The `"modelTurn" in serverContent` branch of `onmessage`: split out
the audio parts, emit one `audio` event (plus log) per truthy base64
payload, then — if any other parts remain — one `content` event holding
exactly those parts (the log carries the whole original message). -/
def handleModelTurn (parts : List ContentPart) (msg : LiveServerMessage) :
    List Eff :=
  let audioParts := parts.filter isAudioPart
  let base64s := audioParts.map (fun p => p.inlineData.bind InlineData.data)
  let otherParts := lodashDifference parts audioParts
  let audioEffs := audioEffsOf base64s
  if otherParts.isEmpty then audioEffs
  else audioEffs ++ [Eff.emitContent otherParts, logE "server.content" (.server msg)]

/-- The `message.serverContent` branch: `interrupted` returns at once;
`turnComplete` emits and falls through to the `modelTurn` check. -/
def handleServerContent (sc : ServerContent) (msg : LiveServerMessage) :
    List Eff :=
  if sc.interrupted then
    [logE "server.content" (.str "interrupted"), Eff.emitInterrupted]
  else
    (if sc.turnComplete then
      [logE "server.content" (.str "turnComplete"), Eff.emitTurnComplete]
     else []) ++
    (match sc.modelTurn with
     | some mt => handleModelTurn (mt.getD []) msg
     | none => [])

/-- The `goAway` branch's timer: when auto-reconnect is enabled and
`timeLeft` is truthy and parses, register a timer for
`max(0, timeLeftMs - 1000)` ms. -/
def goAwayTimer (g : GoAwayMsg) (s : ClientState) : List Eff :=
  if s.autoReconnectEnabled then
    match jsTruthyStr g.timeLeft with
    | some t =>
      match jsParseInt t with
      | some n => [Eff.timerGoAway (max 0 (n - 1000)).toNat]
      | none => []
    | none => []
  else []

/-- `onmessage(message)`: the dispatcher, branches in source order; only
the resumption-update branch mutates state. -/
def onmessage (msg : LiveServerMessage) (s : ClientState) :
    ClientState × List Eff :=
  if msg.setupComplete then
    (s, [logE "server.send" (.str "setupComplete"), Eff.emitSetupComplete])
  else match msg.goAway with
  | some g =>
      (s, [logE "server.goaway"
            (.str ("Connection terminating in " ++ g.timeLeft.getD "undefined"))]
          ++ goAwayTimer g s)
  | none => match msg.sessionResumptionUpdate with
    | some u =>
        if u.resumable then
          match jsTruthyStr u.newHandle with
          | some h =>
              ({ s with resumptionHandle := some h },
                [logE "server.resumption" (.str ("New resumption handle: " ++ h))])
          | none => (s, [])
        else (s, [])
    | none => match msg.toolCall with
      | some tc => (s, [logE "server.toolCall" (.server msg), Eff.emitToolCall tc])
      | none => match msg.toolCallCancellation with
        | some tcc =>
            (s, [logE "server.toolCallCancellation" (.server msg),
                 Eff.emitToolCallCancellation tcc])
        | none => match msg.serverContent with
          | some sc => (s, handleServerContent sc msg)
          | none => (s, [])

/-- The body of the `for (const ch of chunks)` loop of
`sendRealtimeInput`, carrying the `hasAudio` / `hasVideo` flags; the loop
`break`s as soon as both flags are set (after sending the current
chunk). -/
def sendRTLoop (hasSession : Bool) : Bool → Bool → List Chunk →
    List Eff × Bool × Bool
  | a, v, [] => ([], a, v)
  | a, v, ch :: rest =>
    let sendE : List Eff := if hasSession then [Eff.sendMedia ch.mimeType ch.data]
                            else []
    let a' := a || jsIncludes ch.mimeType "audio"
    let v' := v || jsIncludes ch.mimeType "image"
    if a' && v' then (sendE, a', v')
    else
      let r := sendRTLoop hasSession a' v' rest
      (sendE ++ r.1, r.2.1, r.2.2)

/-- `sendRealtimeInput(chunks)`: forward chunks one by one (loop above),
then log a single classification message. -/
def sendRealtimeInput (chunks : List Chunk) (s : ClientState) :
    ClientState × List Eff :=
  let r := sendRTLoop s.session false false chunks
  let hasAudio := r.2.1
  let hasVideo := r.2.2
  let message :=
    if hasAudio && hasVideo then "audio + video"
    else if hasAudio then "audio"
    else if hasVideo then "video"
    else "unknown"
  (s, r.1 ++ [logE "client.realtimeInput" (.str message)])

/-- `sendToolResponse(toolResponse)`: only when `functionResponses` is
present and non-empty, forward them (if a session exists) and log;
otherwise do nothing at all. -/
def sendToolResponse (tr : LiveClientToolResponse) (s : ClientState) :
    ClientState × List Eff :=
  match tr.functionResponses with
  | some rs =>
      if rs.isEmpty then (s, [])
      else
        (s, (if s.session then [Eff.sendToolResp rs] else [])
            ++ [logE "client.toolResponse" (.toolResp tr)])
  | none => (s, [])

/-- `send(parts, turnComplete)`: forward to the transport (if a session
exists) and always log the part array.  (The source also computes an
`isSystemCommand` flag whose value is never used.) -/
def send (parts : PartsArg) (turnComplete : Bool) (s : ClientState) :
    ClientState × List Eff :=
  let partArray := match parts with | .single p => [p] | .many l => l
  (s, (if s.session then [Eff.sendContent parts turnComplete] else [])
      ++ [logE "client.send" (.clientContent partArray turnComplete)])

/-- `attemptReconnection()` (fired by a reconnect timer): abort when
model or config is missing; otherwise call `connect` with the stored
pair and, on success, emit `setupcomplete`.  (`connect` resolves `false`
rather than throwing, so the `catch` branch of the source is
unreachable.) -/
def attemptReconnection (succeed : Bool) (s : ClientState) :
    ClientState × List Eff :=
  match s.model, s.config with
  | some m, some c =>
      let r := connect succeed m c s
      if r.2.1 then (r.1, r.2.2 ++ [Eff.emitSetupComplete])
      else (r.1, r.2.2)
  | _, _ => (s, [])

/-- `setAutoReconnect(enabled)`: store the flag; disabling also resets
the attempt counter to 0. -/
def setAutoReconnect (enabled : Bool) (s : ClientState) :
    ClientState × List Eff :=
  ({ s with autoReconnectEnabled := enabled,
            reconnectAttempts := if enabled then s.reconnectAttempts else 0 },
    [])

/-- `getReconnectionStatus()`. -/
def getReconnectionStatus (s : ClientState) :
    Bool × Nat × Nat × Bool :=
  (s.autoReconnectEnabled, s.reconnectAttempts, s.maxReconnectAttempts,
    s.resumptionHandle.isSome)

/-- All entry points that can touch a client's state, as one operation
type (transport callbacks, public commands, and the timer-driven
`attemptReconnection`; `succeed` again parametrises the transport's
answer to a session-open request). -/
inductive Op
  | opConnect (succeed : Bool) (model config : String)
  | opDisconnect
  | opOnOpen
  | opOnError (msg : String)
  | opOnClose (code : Nat) (reason : String)
  | opOnMessage (msg : LiveServerMessage)
  | opSendRealtimeInput (chunks : List Chunk)
  | opSendToolResponse (tr : LiveClientToolResponse)
  | opSend (parts : PartsArg) (turnComplete : Bool)
  | opSetAutoReconnect (enabled : Bool)
  | opAttemptReconnection (succeed : Bool)
deriving DecidableEq, Repr

/-- Apply one operation to a state, dropping boolean results. -/
def applyOp : Op → ClientState → ClientState × List Eff
  | .opConnect ok m c, s => let r := connect ok m c s; (r.1, r.2.2)
  | .opDisconnect, s => let r := disconnect s; (r.1, r.2.2)
  | .opOnOpen, s => onopen s
  | .opOnError m, s => onerror m s
  | .opOnClose code reason, s => onclose code reason s
  | .opOnMessage m, s => onmessage m s
  | .opSendRealtimeInput cs, s => sendRealtimeInput cs s
  | .opSendToolResponse tr, s => sendToolResponse tr s
  | .opSend p tc, s => send p tc s
  | .opSetAutoReconnect b, s => setAutoReconnect b s
  | .opAttemptReconnection ok, s => attemptReconnection ok s

/-- The media chunks sent to the transport within an effect list. -/
def sentMedia (effs : List Eff) : List Chunk :=
  effs.filterMap (fun e =>
    match e with
    | .sendMedia m d => some ⟨m, d⟩
    | _ => none)

/-- The reconnect-timer delays registered within an effect list. -/
def timersOf (effs : List Eff) : List Nat :=
  effs.filterMap (fun e =>
    match e with
    | .timerReconnect d => some d
    | _ => none)

/-- Audio / content emissions, projected from an effect list in order. -/
inductive MediaEvt
  | audio (data : List Nat)
  | content (parts : List ContentPart)
deriving DecidableEq, Repr

/-- The audio and content events of an effect list, in order. -/
def mediaEventsOf (effs : List Eff) : List MediaEvt :=
  effs.filterMap (fun e =>
    match e with
    | .emitAudio d => some (.audio d)
    | .emitContent ps => some (.content ps)
    | _ => none)

/-- Fire `attemptReconnection` with a failing transport `n` times in a
row (each run is the body of one pending backoff timer), collecting all
effects. -/
def runFailedAttempts : ClientState → Nat → ClientState × List Eff
  | s, 0 => (s, [])
  | s, n + 1 =>
      let r := attemptReconnection false s
      let r2 := runFailedAttempts r.1 n
      (r2.1, r.2 ++ r2.2)

/-- A connected client with a live session, as after one successful
`connect("gemini-live", cfg)`. -/
def connectedState : ClientState :=
  { initialState with
      status := .connected
      session := true
      model := some "gemini-live"
      config := some "cfg" }

/-- Chunk sequence audio, image, audio. -/
def mixedChunks : List Chunk :=
  [⟨"audio/pcm;rate=16000", "AA"⟩, ⟨"image/jpeg", "BB"⟩,
   ⟨"audio/pcm;rate=16000", "CC"⟩]

/-- Backoff scenario, step 1: an abnormal close hits the connected
client. -/
def c2AfterClose : ClientState × List Eff :=
  onclose 1006 "network error" connectedState

/-- Backoff scenario, step 2: the five backoff timers fire in turn, each
reconnection attempt failing. -/
def c2Chain : ClientState × List Eff :=
  runFailedAttempts c2AfterClose.1 5

/-- A connected client whose attempt budget is exhausted while
auto-reconnect is still enabled (the reconnection fields are exactly
those of `c2Chain.1`, so this is a reachable configuration). -/
def c3Exhausted : ClientState :=
  { connectedState with reconnectAttempts := 5 }

/-- An inline-audio part with the given optional base64 payload. -/
def audioPartOf (d : Option String) : ContentPart :=
  ⟨none, some ⟨some "audio/pcm;rate=24000", d⟩⟩

/-- A plain text part. -/
def textPartOf (t : String) : ContentPart :=
  ⟨some t, none⟩

/-- A message whose only marker is a `serverContent.modelTurn` with the
given parts. -/
def modelTurnMsg (parts : List ContentPart) : LiveServerMessage :=
  ⟨false, none, none, none, none, some ⟨false, false, some (some parts)⟩⟩

/-- The spec's ModelTurn example: `[audio(A), text(B), audio(C)]`. -/
def c5ExampleParts : List ContentPart :=
  [audioPartOf (some "AAAA"), textPartOf "B", audioPartOf (some "BBBB")]

/-- A ServerContent message carrying both a `turnComplete` marker and a
model turn with one non-audio part. -/
def c6Msg : LiveServerMessage :=
  ⟨false, none, none, none, none, some ⟨false, true, some (some [textPartOf "B"])⟩⟩

/-- A message whose only marker is a `sessionResumptionUpdate`. -/
def resumptionMsg (u : ResumptionUpdate) : LiveServerMessage :=
  ⟨false, none, some u, none, none, none⟩

/-- Claim C4 (confirmed): a `connect` call on a Connecting or Connected
client returns `false` and changes nothing (state, result and effects
are exactly those of a no-op); on a Disconnected client whose transport
open succeeds, the status becomes Connected, the attempt counter resets
to 0, and the call returns `true`. -/
theorem claim_C4_connect_guard (succeed : Bool) (m c : String) (s : ClientState) :
    ((s.status = .connecting ∨ s.status = .connected) →
      connect succeed m c s = (s, false, [])) ∧
    (s.status = .disconnected → succeed = true →
      (connect succeed m c s).1.status = .connected ∧
      (connect succeed m c s).1.reconnectAttempts = 0 ∧
      (connect succeed m c s).2.1 = true) := by
  constructor
  · intro h
    unfold connect
    rcases h with h | h <;> simp [h]
  · intro h hs
    subst hs
    simp [connect, h]

/-- Claim C4 witness: a Connecting client rejects `connect` unchanged,
and a fresh Disconnected client accepts it. -/
theorem claim_C4_connect_guard_witness :
    connect true "m" "c" ({ initialState with status := .connecting }) =
      ({ initialState with status := .connecting }, false, []) ∧
    ((connect true "m" "c" initialState).1.status = .connected ∧
      (connect true "m" "c" initialState).1.reconnectAttempts = 0 ∧
      (connect true "m" "c" initialState).2.1 = true) :=
  ⟨(claim_C4_connect_guard true "m" "c" _).1 (Or.inl rfl),
   (claim_C4_connect_guard true "m" "c" initialState).2 rfl rfl⟩

/-- Claim C8 (confirmed): `disconnect` with no active session returns
`false` with no state change and no effects (hence no close
notification); with an active session it closes the transport, clears
the session handle, sets the status to Disconnected, emits the
`client.close` log, and returns `true`. -/
theorem claim_C8_disconnect (s : ClientState) :
    (s.session = false → disconnect s = (s, false, [])) ∧
    (s.session = true →
      (disconnect s).2.1 = true ∧
      (disconnect s).1.session = false ∧
      (disconnect s).1.status = .disconnected ∧
      (disconnect s).2.2 =
        [Eff.closeSession, logE "client.close" (.str "Disconnected")]) := by
  constructor
  · intro h
    simp [disconnect, h]
  · intro h
    simp [disconnect, h]

/-- Claim C8 witness: `disconnect` on the fresh Disconnected client and
on a connected client. -/
theorem claim_C8_disconnect_witness :
    disconnect initialState = (initialState, false, []) ∧
    ((disconnect connectedState).2.1 = true ∧
      (disconnect connectedState).1.session = false ∧
      (disconnect connectedState).1.status = .disconnected ∧
      (disconnect connectedState).2.2 =
        [Eff.closeSession, logE "client.close" (.str "Disconnected")]) :=
  ⟨(claim_C8_disconnect initialState).1 rfl,
   (claim_C8_disconnect connectedState).2 rfl⟩

/-- Claim C9 (confirmed): `sendToolResponse` with an absent or empty
function-response set performs no transmission and produces no log (no
effects at all, no state change); with a non-empty set and a present
Transport Session it forwards the responses verbatim and logs them. -/
theorem claim_C9_tool_response (s : ClientState) (tr : LiveClientToolResponse) :
    ((tr.functionResponses = none ∨ tr.functionResponses = some []) →
      sendToolResponse tr s = (s, [])) ∧
    (∀ rs, tr.functionResponses = some rs → rs ≠ [] → s.session = true →
      (sendToolResponse tr s).2 =
        [Eff.sendToolResp rs, logE "client.toolResponse" (.toolResp tr)]) := by
  constructor
  · intro h
    rcases h with h | h <;> simp [sendToolResponse, h]
  · intro rs h hne hs
    simp [sendToolResponse, h, hs, hne]

/-- Claim C9 witness: an empty tool response is dropped silently; a
non-empty one on a connected client is forwarded and logged. -/
theorem claim_C9_tool_response_witness :
    sendToolResponse ⟨some []⟩ connectedState = (connectedState, []) ∧
    (sendToolResponse ⟨some ["r1"]⟩ connectedState).2 =
      [Eff.sendToolResp ["r1"],
       logE "client.toolResponse" (.toolResp ⟨some ["r1"]⟩)] :=
  ⟨(claim_C9_tool_response connectedState ⟨some []⟩).1 (Or.inr rfl),
   (claim_C9_tool_response connectedState ⟨some ["r1"]⟩).2 ["r1"] rfl
     (by decide) rfl⟩

/-- Claim C10 (confirmed): in every state, `setAutoReconnect(false)`
disables auto-reconnection and resets the attempt counter to 0, so a
later `setAutoReconnect(true)` restores the full attempt budget;
`setAutoReconnect(true)` sets the flag and leaves the counter (and all
other fields) unchanged. -/
theorem claim_C10_set_auto_reconnect (s : ClientState) :
    (setAutoReconnect false s).1 =
      { s with autoReconnectEnabled := false, reconnectAttempts := 0 } ∧
    (setAutoReconnect true s).1 = { s with autoReconnectEnabled := true } ∧
    (setAutoReconnect true ((setAutoReconnect false s).1)).1.reconnectAttempts = 0 ∧
    (setAutoReconnect true ((setAutoReconnect false s).1)).1.autoReconnectEnabled
      = true :=
  ⟨rfl, rfl, rfl, rfl⟩

/-- With a session present, the chunks forwarded by the send loop form a
prefix of the input sequence. -/
theorem sentMedia_sendRTLoop_front (chunks : List Chunk) :
    ∀ a v, sentMedia (sendRTLoop true a v chunks).1 <+: chunks := by
  induction chunks with
  | nil =>
      intro a v
      simp [sendRTLoop, sentMedia]
  | cons ch rest ih =>
      intro a v
      simp only [sendRTLoop]
      split
      · exact ⟨rest, rfl⟩
      · obtain ⟨t, ht⟩ :=
          ih (a || jsIncludes ch.mimeType "audio") (v || jsIncludes ch.mimeType "image")
        refine ⟨t, ?_⟩
        simp only [sentMedia, List.filterMap_append] at ht ⊢
        simp [ht]

/-- If no chunk's mime type contains `"image"`, the loop never breaks:
every chunk is forwarded, in order. -/
theorem sentMedia_sendRTLoop_noImage (chunks : List Chunk)
    (h : ∀ ch ∈ chunks, jsIncludes ch.mimeType "image" = false) :
    ∀ a, sentMedia (sendRTLoop true a false chunks).1 = chunks := by
  induction chunks with
  | nil =>
      intro a
      rfl
  | cons ch rest ih =>
      intro a
      have hch : jsIncludes ch.mimeType "image" = false := h ch (by simp)
      have hrest : ∀ c ∈ rest, jsIncludes c.mimeType "image" = false :=
        fun c hc => h c (List.mem_cons_of_mem _ hc)
      simp only [sendRTLoop, hch, Bool.or_false, Bool.and_false, if_neg]
      simp only [sentMedia, List.filterMap_append] at ih ⊢
      simp [ih hrest]

/-- If no chunk's mime type contains `"audio"`, the loop never breaks:
every chunk is forwarded, in order. -/
theorem sentMedia_sendRTLoop_noAudio (chunks : List Chunk)
    (h : ∀ ch ∈ chunks, jsIncludes ch.mimeType "audio" = false) :
    ∀ v, sentMedia (sendRTLoop true false v chunks).1 = chunks := by
  induction chunks with
  | nil =>
      intro v
      rfl
  | cons ch rest ih =>
      intro v
      have hch : jsIncludes ch.mimeType "audio" = false := h ch (by simp)
      have hrest : ∀ c ∈ rest, jsIncludes c.mimeType "audio" = false :=
        fun c hc => h c (List.mem_cons_of_mem _ hc)
      simp only [sendRTLoop, hch, Bool.false_or, Bool.false_and, if_neg]
      simp only [sentMedia, List.filterMap_append] at ih ⊢
      simp [ih hrest]

/-- Claim C1 counterexample: on the sequence audio, image, audio with a
session present, only the first two chunks reach the Transport Session —
the third is never transmitted, so mime-type classification does affect
which chunks are sent. -/
theorem claim_C1_truncation_counterexample :
    sentMedia (sendRealtimeInput mixedChunks connectedState).2 =
      [⟨"audio/pcm;rate=16000", "AA"⟩, ⟨"image/jpeg", "BB"⟩] ∧
    sentMedia (sendRealtimeInput mixedChunks connectedState).2 ≠ mixedChunks := by
  decide

/-- Claim C1 (corrected): with a session present, `sendRealtimeInput`
forwards chunks individually and in order, but only a prefix of the
sequence: the loop stops once both an audio-matching and an
image-matching mime type have been observed.  When the sequence never
contains both kinds, every chunk is forwarded in order. -/
theorem claim_C1_send_realtime_order (s : ClientState) (chunks : List Chunk)
    (hs : s.session = true) :
    sentMedia (sendRealtimeInput chunks s).2 <+: chunks ∧
    (((∀ ch ∈ chunks, jsIncludes ch.mimeType "audio" = false) ∨
      (∀ ch ∈ chunks, jsIncludes ch.mimeType "image" = false)) →
      sentMedia (sendRealtimeInput chunks s).2 = chunks) := by
  have heffs : sentMedia (sendRealtimeInput chunks s).2 =
      sentMedia (sendRTLoop true false false chunks).1 := by
    simp [sendRealtimeInput, hs, sentMedia, List.filterMap_append, logE]
  constructor
  · rw [heffs]
    exact sentMedia_sendRTLoop_front chunks false false
  · intro h
    rw [heffs]
    rcases h with h | h
    · exact sentMedia_sendRTLoop_noAudio chunks h false
    · exact sentMedia_sendRTLoop_noImage chunks h false

/-- Claim C1 witness: an all-audio pair of chunks is forwarded in full
and is (trivially) a prefix of itself. -/
theorem claim_C1_send_realtime_order_witness :
    sentMedia (sendRealtimeInput
        [⟨"audio/pcm;rate=16000", "AA"⟩, ⟨"audio/pcm;rate=16000", "CC"⟩]
        connectedState).2 <+:
      [⟨"audio/pcm;rate=16000", "AA"⟩, ⟨"audio/pcm;rate=16000", "CC"⟩] ∧
    sentMedia (sendRealtimeInput
        [⟨"audio/pcm;rate=16000", "AA"⟩, ⟨"audio/pcm;rate=16000", "CC"⟩]
        connectedState).2 =
      [⟨"audio/pcm;rate=16000", "AA"⟩, ⟨"audio/pcm;rate=16000", "CC"⟩] :=
  ⟨(claim_C1_send_realtime_order connectedState _ rfl).1,
   (claim_C1_send_realtime_order connectedState _ rfl).2
     (Or.inr (by decide))⟩

/-- `scheduleReconnect` never changes the status field. -/
theorem scheduleReconnect_status (s : ClientState) :
    (scheduleReconnect s).1.status = s.status := by
  unfold scheduleReconnect
  split <;> rfl

/-- `scheduleReconnect` never changes the session field. -/
theorem scheduleReconnect_session (s : ClientState) :
    (scheduleReconnect s).1.session = s.session := by
  unfold scheduleReconnect
  split <;> rfl

/-- `scheduleReconnect` never changes the resumption handle. -/
theorem scheduleReconnect_handle (s : ClientState) :
    (scheduleReconnect s).1.resumptionHandle = s.resumptionHandle := by
  unfold scheduleReconnect
  split <;> rfl

/-- Claim C2 counterexample: run the default backoff chain — an abnormal
close followed by five failed reconnection attempts, no intervening
success.  The five delays 1000…16000 ms are all scheduled and the
counter reaches 5, yet `autoReconnectEnabled` is still `true` after the
5th failed attempt (the failure path of `connect` only re-schedules
while `attempts < max` and never reaches the disabling branch of
`scheduleReconnect`), contradicting the claim that it becomes false. -/
theorem claim_C2_enabled_stays_true_counterexample :
    timersOf (c2AfterClose.2 ++ c2Chain.2) = [1000, 2000, 4000, 8000, 16000] ∧
    c2Chain.1.reconnectAttempts = 5 ∧
    c2Chain.1.autoReconnectEnabled = true := by
  decide

/-- Claim C2 (corrected): the delay is the pure function
`baseDelay * 2 ^ attemptCount` of the counter at scheduling time, and
under the defaults the chain of an abnormal close plus repeated failed
reconnections schedules exactly the delays 1000, 2000, 4000, 8000,
16000 ms for attempts 1–5.  After the 5th failed attempt no further
attempt is scheduled from the failure path, but `autoReconnectEnabled`
remains `true`; it only becomes `false` when `scheduleReconnect` is next
invoked with the exhausted counter (for example by a subsequent abnormal
close), which again schedules nothing. -/
theorem claim_C2_backoff_chain :
    (∀ s : ClientState, s.reconnectAttempts < s.maxReconnectAttempts →
      scheduleReconnect s =
        ({ s with reconnectAttempts := s.reconnectAttempts + 1 },
          [Eff.timerReconnect (s.reconnectDelay * 2 ^ s.reconnectAttempts)])) ∧
    timersOf (c2AfterClose.2 ++ c2Chain.2) = [1000, 2000, 4000, 8000, 16000] ∧
    c2Chain.1.reconnectAttempts = 5 ∧
    c2Chain.1.autoReconnectEnabled = true ∧
    timersOf (attemptReconnection false c2Chain.1).2 = [] ∧
    timersOf (onclose 1006 "lost again" c2Chain.1).2 = [] ∧
    (onclose 1006 "lost again" c2Chain.1).1.autoReconnectEnabled = false := by
  refine ⟨?_, by decide, by decide, by decide, by decide, by decide, by decide⟩
  intro s h
  unfold scheduleReconnect
  rw [if_neg (by omega)]

/-- Claim C2 witness: the delay formula at the fresh client: attempt
counter 0 yields a 1000 ms timer and counter 1. -/
theorem claim_C2_backoff_chain_witness :
    scheduleReconnect initialState =
      ({ initialState with reconnectAttempts := 1 }, [Eff.timerReconnect 1000]) :=
  claim_C2_backoff_chain.1 initialState (by decide)

/-- Claim C3 counterexample: a close with abnormal code 1006 while
auto-reconnect is enabled but the attempt budget is exhausted (the
reconnection fields of `c3Exhausted` are reachable, see
`claim_C2_enabled_stays_true_counterexample`) schedules no reconnection
attempt at all — not exactly one — and instead permanently disables
auto-reconnection. -/
theorem claim_C3_no_attempt_counterexample :
    c3Exhausted.autoReconnectEnabled = true ∧
    timersOf (onclose 1006 "lost" c3Exhausted).2 = [] ∧
    (onclose 1006 "lost" c3Exhausted).1.autoReconnectEnabled = false := by
  decide

/-- Claim C3 (corrected): every close event sets the status to
Disconnected, clears the session handle, and emits the close
notification last, after the state updates and any scheduling.  A
normal-code (1000) close schedules nothing regardless of the flag, as
does any close while auto-reconnect is disabled.  An abnormal close with
auto-reconnect enabled schedules exactly one attempt (with the backoff
delay, incrementing the counter) only while the counter is below
`maxReconnectAttempts`; at or past the ceiling it schedules nothing and
disables auto-reconnection. -/
theorem claim_C3_onclose_behaviour (s : ClientState) (code : Nat) (reason : String) :
    (onclose code reason s).1.status = .disconnected ∧
    (onclose code reason s).1.session = false ∧
    (onclose code reason s).2.getLast? = some (Eff.emitClose code reason) ∧
    (code = 1000 → timersOf (onclose code reason s).2 = []) ∧
    (s.autoReconnectEnabled = false → timersOf (onclose code reason s).2 = []) ∧
    (code ≠ 1000 → s.autoReconnectEnabled = true →
      s.reconnectAttempts < s.maxReconnectAttempts →
      timersOf (onclose code reason s).2 =
        [s.reconnectDelay * 2 ^ s.reconnectAttempts] ∧
      (onclose code reason s).1.reconnectAttempts = s.reconnectAttempts + 1) ∧
    (code ≠ 1000 → s.autoReconnectEnabled = true →
      s.maxReconnectAttempts ≤ s.reconnectAttempts →
      timersOf (onclose code reason s).2 = [] ∧
      (onclose code reason s).1.autoReconnectEnabled = false) := by
  refine ⟨?_, ?_, ?_, ?_, ?_, ?_, ?_⟩
  · simp only [onclose]
    split
    · exact (scheduleReconnect_status _).trans rfl
    · rfl
  · simp only [onclose]
    split
    · exact (scheduleReconnect_session _).trans rfl
    · rfl
  · simp only [onclose]
    exact List.getLast?_concat _
  · intro h
    subst h
    simp [onclose, timersOf, logE]
  · intro h
    simp [onclose, h, timersOf, logE]
  · intro hc he ha
    simp [onclose, hc, he, scheduleReconnect, Nat.not_le.mpr ha, timersOf, logE]
  · intro hc he ha
    simp [onclose, hc, he, scheduleReconnect, ha, timersOf, logE]

/-- Claim C3 witness: an abnormal close on the connected default client
(flag on, counter 0) schedules exactly one 1000 ms attempt and bumps the
counter to 1; a normal close on the same client schedules nothing. -/
theorem claim_C3_onclose_behaviour_witness :
    (timersOf (onclose 1006 "network error" connectedState).2 = [1000] ∧
      (onclose 1006 "network error" connectedState).1.reconnectAttempts = 1) ∧
    timersOf (onclose 1000 "bye" connectedState).2 = [] :=
  ⟨(claim_C3_onclose_behaviour connectedState 1006 "network error").2.2.2.2.2.1
      (by decide) rfl (by decide),
   (claim_C3_onclose_behaviour connectedState 1000 "bye").2.2.2.1 rfl⟩

/-- lodash `difference` of a list against its own `isAudioPart` filtrate
is the complementary filter: membership in the filtrate is equivalent to
satisfying the predicate. -/
theorem lodashDifference_filter (parts : List ContentPart) :
    lodashDifference parts (parts.filter isAudioPart) =
      parts.filter (fun p => !isAudioPart p) := by
  unfold lodashDifference
  apply List.filter_congr
  intro p hp
  by_cases h : isAudioPart p
  · simp [List.mem_filter, hp, h]
  · simp [List.mem_filter, h]

/-- `mediaEventsOf` distributes over append. -/
theorem mediaEventsOf_append (l1 l2 : List Eff) :
    mediaEventsOf (l1 ++ l2) = mediaEventsOf l1 ++ mediaEventsOf l2 := by
  simp [mediaEventsOf, List.filterMap_append]

/-- The audio loop yields exactly one audio event per truthy payload, in
order, with the decoded bytes. -/
theorem mediaEventsOf_audioEffsOf (bs : List (Option String)) :
    mediaEventsOf (audioEffsOf bs) =
      bs.filterMap (fun b? =>
        (jsTruthyStr b?).map (fun b => MediaEvt.audio (base64ToArrayBuffer b))) := by
  induction bs with
  | nil => rfl
  | cons b rest ih =>
      simp only [audioEffsOf, mediaEventsOf] at ih ⊢
      rw [List.map_cons, List.flatten_cons, List.filterMap_append, ih]
      cases h : jsTruthyStr b <;> simp [h, logE]

/-- Claim C5 counterexample: a ModelTurn message whose single part is an
inline-audio part with an empty data payload emits no audio event at all
(and no content event), although the message has exactly one audio part
— refuting "one audio event is emitted per audio part". -/
theorem claim_C5_empty_audio_counterexample :
    ([audioPartOf (some "")].filter isAudioPart).length = 1 ∧
    mediaEventsOf (onmessage (modelTurnMsg [audioPartOf (some "")]) initialState).2
      = [] := by
  decide

/-- Claim C5 (corrected): for every ModelTurn message the parts are
partitioned by the `audio/pcm` mime prefix; one audio event is emitted
per audio part whose data payload is present and non-empty (audio parts
with absent or empty data emit nothing yet are still excluded from the
content event), with the decoded bytes, in the parts' original relative
order; afterwards one content event carries exactly the non-audio parts
in their original relative order, and is omitted when there are none.
The handler leaves the client state unchanged. -/
theorem claim_C5_model_turn_partition (s : ClientState) (msg : LiveServerMessage)
    (sc : ServerContent) (parts : List ContentPart)
    (h1 : msg.setupComplete = false) (h2 : msg.goAway = none)
    (h3 : msg.sessionResumptionUpdate = none) (h4 : msg.toolCall = none)
    (h5 : msg.toolCallCancellation = none) (h6 : msg.serverContent = some sc)
    (h7 : sc.interrupted = false) (h8 : sc.modelTurn = some (some parts)) :
    mediaEventsOf (onmessage msg s).2 =
      (parts.filter isAudioPart).filterMap
        (fun p => (jsTruthyStr (p.inlineData.bind InlineData.data)).map
          (fun b => MediaEvt.audio (base64ToArrayBuffer b)))
      ++ (if (parts.filter (fun p => !isAudioPart p)).isEmpty then []
          else [MediaEvt.content (parts.filter (fun p => !isAudioPart p))]) ∧
    (onmessage msg s).1 = s := by
  have hmsg : onmessage msg s = (s, handleServerContent sc msg) := by
    simp [onmessage, h1, h2, h3, h4, h5, h6]
  rw [hmsg]
  refine ⟨?_, rfl⟩
  have hturn : mediaEventsOf
      (if sc.turnComplete then
        [logE "server.content" (.str "turnComplete"), Eff.emitTurnComplete]
       else []) = [] := by
    cases sc.turnComplete <;> simp [mediaEventsOf, logE]
  have hmt : mediaEventsOf (handleModelTurn parts msg) =
      (parts.filter isAudioPart).filterMap
        (fun p => (jsTruthyStr (p.inlineData.bind InlineData.data)).map
          (fun b => MediaEvt.audio (base64ToArrayBuffer b)))
      ++ (if (parts.filter (fun p => !isAudioPart p)).isEmpty then []
          else [MediaEvt.content (parts.filter (fun p => !isAudioPart p))]) := by
    simp only [handleModelTurn, lodashDifference_filter]
    by_cases he : (parts.filter (fun p => !isAudioPart p)).isEmpty
    · rw [if_pos he, mediaEventsOf_audioEffsOf, List.filterMap_map, if_pos he,
        List.append_nil]
      rfl
    · rw [if_neg he, mediaEventsOf_append, mediaEventsOf_audioEffsOf,
        List.filterMap_map, if_neg he]
      congr 1
  simp only [handleServerContent, h7, h8, Bool.false_eq_true, if_false,
    Option.getD_some, mediaEventsOf_append, hturn, List.nil_append, hmt]

/-- Claim C5 witness: the spec's example `[audio(A), text(B), audio(C)]`
yields audio(A), audio(C), then a content event holding exactly
`[text(B)]`. -/
theorem claim_C5_model_turn_partition_witness :
    mediaEventsOf (onmessage (modelTurnMsg c5ExampleParts) initialState).2 =
      [MediaEvt.audio (base64ToArrayBuffer "AAAA"),
       MediaEvt.audio (base64ToArrayBuffer "BBBB"),
       MediaEvt.content [textPartOf "B"]] := by
  rw [(claim_C5_model_turn_partition initialState (modelTurnMsg c5ExampleParts)
        ⟨false, false, some (some c5ExampleParts)⟩ c5ExampleParts
        rfl rfl rfl rfl rfl rfl rfl rfl).1]
  decide

/-- Claim C6 (confirmed): a ServerContent-classified message (no
higher-priority marker, not interrupted) that carries both a
`turnComplete` marker and a `modelTurn` with at least one non-audio part
emits both the `turncomplete` notification and a `content` notification
— the two sub-cases are not mutually exclusive. -/
theorem claim_C6_turncomplete_and_content (s : ClientState)
    (msg : LiveServerMessage) (sc : ServerContent)
    (mt : Option (List ContentPart)) (p : ContentPart)
    (h1 : msg.setupComplete = false) (h2 : msg.goAway = none)
    (h3 : msg.sessionResumptionUpdate = none) (h4 : msg.toolCall = none)
    (h5 : msg.toolCallCancellation = none) (h6 : msg.serverContent = some sc)
    (h7 : sc.interrupted = false) (h8 : sc.turnComplete = true)
    (h9 : sc.modelTurn = some mt) (hp : p ∈ mt.getD [])
    (hpa : isAudioPart p = false) :
    Eff.emitTurnComplete ∈ (onmessage msg s).2 ∧
    ∃ ps, Eff.emitContent ps ∈ (onmessage msg s).2 := by
  have hmsg : (onmessage msg s).2 = handleServerContent sc msg := by
    simp [onmessage, h1, h2, h3, h4, h5, h6]
  rw [hmsg]
  simp only [handleServerContent, h7, h8, h9, Bool.false_eq_true, if_false,
    if_true]
  constructor
  · simp
  · have hpo : p ∈ lodashDifference (mt.getD [])
        ((mt.getD []).filter isAudioPart) := by
      unfold lodashDifference
      rw [List.mem_filter]
      exact ⟨hp, by simp [List.mem_filter, hpa]⟩
    have hne : (lodashDifference (mt.getD [])
        ((mt.getD []).filter isAudioPart)).isEmpty = false := by
      have hnil := List.ne_nil_of_mem hpo
      cases hE : (lodashDifference (mt.getD [])
          ((mt.getD []).filter isAudioPart)).isEmpty
      · rfl
      · exact absurd (List.isEmpty_iff.mp hE) hnil
    refine ⟨lodashDifference (mt.getD []) ((mt.getD []).filter isAudioPart), ?_⟩
    simp [handleModelTurn, hne]

/-- Claim C6 witness: the concrete message with `turnComplete` and a
model turn holding one text part fires both notifications. -/
theorem claim_C6_turncomplete_and_content_witness :
    Eff.emitTurnComplete ∈ (onmessage c6Msg initialState).2 ∧
    ∃ ps, Eff.emitContent ps ∈ (onmessage c6Msg initialState).2 :=
  claim_C6_turncomplete_and_content initialState c6Msg
    ⟨false, true, some (some [textPartOf "B"])⟩ (some [textPartOf "B"])
    (textPartOf "B") rfl rfl rfl rfl rfl rfl rfl rfl rfl (by decide) rfl

/-- `connect` never changes the resumption handle. -/
theorem connect_handle (ok : Bool) (m c : String) (s : ClientState) :
    (connect ok m c s).1.resumptionHandle = s.resumptionHandle := by
  unfold connect
  split
  · rfl
  · dsimp only
    split
    · rfl
    · split
      · exact scheduleReconnect_handle _
      · rfl

/-- `onclose` never changes the resumption handle. -/
theorem onclose_handle (code : Nat) (reason : String) (s : ClientState) :
    (onclose code reason s).1.resumptionHandle = s.resumptionHandle := by
  unfold onclose
  dsimp only
  split
  · exact scheduleReconnect_handle _
  · rfl

/-- `attemptReconnection` never changes the resumption handle. -/
theorem attemptReconnection_handle (ok : Bool) (s : ClientState) :
    (attemptReconnection ok s).1.resumptionHandle = s.resumptionHandle := by
  obtain ⟨st, se, mo, cf, rh, en, ra, mx, rd⟩ := s
  cases mo <;> cases cf
  · rfl
  · rfl
  · rfl
  · dsimp only [attemptReconnection]
    split
    · exact connect_handle ..
    · exact connect_handle ..

/-- The only `onmessage` branch that writes the resumption handle is a
resumption update with `resumable` and a truthy new handle; every other
message leaves it unchanged. -/
theorem onmessage_handle (msg : LiveServerMessage) (s : ClientState) :
    (onmessage msg s).1.resumptionHandle = s.resumptionHandle ∨
    (∃ u h, msg.sessionResumptionUpdate = some u ∧ u.resumable = true ∧
      jsTruthyStr u.newHandle = some h ∧
      (onmessage msg s).1.resumptionHandle = some h) := by
  by_cases h1 : msg.setupComplete = true
  · left
    simp [onmessage, h1]
  · cases h2 : msg.goAway with
    | some g =>
        left
        simp [onmessage, h1, h2]
    | none =>
      cases h3 : msg.sessionResumptionUpdate with
      | some u =>
          by_cases hr : u.resumable = true
          · cases hh : jsTruthyStr u.newHandle with
            | some hdl =>
                right
                exact ⟨u, hdl, rfl, hr, hh,
                  by simp [onmessage, h1, h2, h3, hr, hh]⟩
            | none =>
                left
                simp [onmessage, h1, h2, h3, hr, hh]
          · left
            simp [onmessage, h1, h2, h3, hr]
      | none =>
          left
          cases h4 : msg.toolCall with
          | some tc => simp [onmessage, h1, h2, h3, h4]
          | none =>
            cases h5 : msg.toolCallCancellation with
            | some tcc => simp [onmessage, h1, h2, h3, h4, h5]
            | none =>
              cases h6 : msg.serverContent with
              | some sc => simp [onmessage, h1, h2, h3, h4, h5, h6]
              | none => simp [onmessage, h1, h2, h3, h4, h5, h6]

/-- Claim C7 (confirmed): across every operation of the client, the
stored resumption handle either stays exactly what it was, or the
operation is the delivery of a resumption-update message reporting
`resumable` with a truthy new handle, which is then stored (overwriting
any prior value).  In particular a `resumable=false` update changes
nothing, and a populated handle is never cleared by any operation. -/
theorem claim_C7_resumption_handle (op : Op) (s : ClientState) :
    ((applyOp op s).1.resumptionHandle = s.resumptionHandle ∨
      ∃ m u h, op = Op.opOnMessage m ∧ m.sessionResumptionUpdate = some u ∧
        u.resumable = true ∧ jsTruthyStr u.newHandle = some h ∧
        (applyOp op s).1.resumptionHandle = some h) ∧
    (∀ h0, s.resumptionHandle = some h0 →
      ∃ h1, (applyOp op s).1.resumptionHandle = some h1) := by
  have main : (applyOp op s).1.resumptionHandle = s.resumptionHandle ∨
      ∃ m u h, op = Op.opOnMessage m ∧ m.sessionResumptionUpdate = some u ∧
        u.resumable = true ∧ jsTruthyStr u.newHandle = some h ∧
        (applyOp op s).1.resumptionHandle = some h := by
    cases op with
    | opConnect ok m c =>
        left
        exact connect_handle ok m c s
    | opDisconnect =>
        left
        dsimp only [applyOp]
        unfold disconnect
        split <;> rfl
    | opOnOpen => left; rfl
    | opOnError m => left; rfl
    | opOnClose code reason =>
        left
        exact onclose_handle code reason s
    | opOnMessage m =>
        rcases onmessage_handle m s with h | ⟨u, hdl, h3, hr, hh, hres⟩
        · left
          exact h
        · right
          exact ⟨m, u, hdl, rfl, h3, hr, hh, hres⟩
    | opSendRealtimeInput cs => left; rfl
    | opSendToolResponse tr =>
        left
        dsimp only [applyOp]
        unfold sendToolResponse
        cases tr.functionResponses
        · rfl
        · dsimp only
          split <;> rfl
    | opSend p tc => left; rfl
    | opSetAutoReconnect b => left; rfl
    | opAttemptReconnection ok =>
        left
        exact attemptReconnection_handle ok s
  refine ⟨main, ?_⟩
  intro h0 hh0
  rcases main with h | ⟨m, u, hdl, _, _, _, _, hres⟩
  · exact ⟨h0, by rw [h, hh0]⟩
  · exact ⟨hdl, hres⟩

/-- Claim C7 witness: a `disconnect` on a client holding a populated
handle leaves the handle populated. -/
theorem claim_C7_resumption_handle_witness :
    ∃ h1, (applyOp Op.opDisconnect
        ({ connectedState with resumptionHandle := some "handle-1" })).1.resumptionHandle
      = some h1 :=
  (claim_C7_resumption_handle Op.opDisconnect
      ({ connectedState with resumptionHandle := some "handle-1" })).2
    "handle-1" rfl

end EsportsCoach
